import Mathlib

set_option maxHeartbeats 1000000

/-!
Verification development for the ClawForge frontend event/state
reconciliation layer (frontend/src): the live stream buffer
(useEventStream), the history view of one run (RunDetail), the run list
(RunList), and the run-state resolution described by the design spec.
All definitions below are shallow embeddings of the TypeScript source,
except where a doc comment says the definition is modelled from the spec
because the corresponding backend code is not part of the frontend
sources.
-/

/-- The Event record from frontend/src/types.ts.  The payload is an opaque
structured value that this layer never inspects, embedded as a string. -/
structure Event where
  id : String
  run_id : String
  agent_id : String
  timestamp : String
  kind : String
  payload : String
deriving DecidableEq

/-- Capacity of the live event buffer in useEventStream
(the literal 100 in the slice call). -/
def bufferCapacity : Nat := 100

/-- One successful onmessage step of useEventStream: the parsed event is
prepended and the buffer is truncated to the capacity
(the expression [event, ...prev].slice(0, 100)). -/
def pushEvent (e : Event) (prev : List Event) : List Event :=
  (e :: prev).take bufferCapacity

/-- State owned by useEventStream: the buffer and the connectivity flag. -/
structure StreamState where
  events : List Event
  isConnected : Bool
deriving DecidableEq

/-- The socket onmessage handler of useEventStream.  The argument is the
result of JSON.parse on the message data: some event on success, none when
parsing threw.  The returned Bool records whether a parse warning was
logged (the console.error call in the catch block).  A malformed message
changes nothing else: the socket is not closed and the buffer is not
touched. -/
def onMessage (s : StreamState) (parsed : Option Event) : StreamState × Bool :=
  match parsed with
  | some e => ({ s with events := pushEvent e s.events }, false)
  | none => (s, true)

/-- Buffer contents after a whole sequence of successfully parsed
messages arrives, starting from the empty initial buffer. -/
def runStream (msgs : List Event) : List Event :=
  msgs.foldl (fun buf e => pushEvent e buf) []

/-- The canonical run lifecycle states of the spec.  The TypeScript union
RunState in types.ts lists the six named states; the spec additionally
requires a distinct initial value, unknown, before any event is observed,
which is also the literal initial status string in RunDetail. -/
inductive RunState where
  | unknown
  | active
  | paused
  | awaitingInput
  | cancelled
  | completed
  | failed
deriving DecidableEq

/-- Terminal states: Cancelled, Completed, Failed. -/
def RunState.isTerminal : RunState → Bool
  | .cancelled => true
  | .completed => true
  | .failed => true
  | _ => false

/-- The event kinds that drive a run into a terminal state. -/
def terminalKinds : List String :=
  ["run_completed", "run_failed", "run_cancelled"]

/-- Modelled from the spec: one transition of the RunStateResolver.  The
resolver itself lives in the backend run-state tracking
(clawforge-supervisor), which is not among the frontend sources; this
function follows the transition table of spec section 4.3 verbatim:
terminal states absorb everything, run_started / run_paused /
request_input move any non-terminal state, input_received and resume move
only Paused or AwaitingInput to Active, the three terminal kinds end the
run, and unrecognized kinds leave the state unchanged. -/
def stepState (s : RunState) (kind : String) : RunState :=
  if s.isTerminal then s
  else if kind == "run_started" then RunState.active
  else if kind == "run_paused" then RunState.paused
  else if kind == "request_input" then RunState.awaitingInput
  else if kind == "input_received" || kind == "resume" then
    (if s == RunState.paused || s == RunState.awaitingInput then RunState.active else s)
  else if kind == "run_completed" then RunState.completed
  else if kind == "run_failed" then RunState.failed
  else if kind == "run_cancelled" then RunState.cancelled
  else s

/-- Modelled from the spec: resolve maps an ordered event sequence to the
derived run state, folding the transition table over the events in
arrival order, starting from unknown. -/
def resolve (events : List Event) : RunState :=
  events.foldl (fun s e => stepState s e.kind) RunState.unknown

/-- The React state of the RunDetail component: events, status,
inputPrompt, inputValue and loading, with the initial values passed to
useState. -/
structure RunDetailState where
  events : List Event
  status : String
  inputPrompt : Option String
  inputValue : String
  loading : Bool
deriving DecidableEq

/-- Initial RunDetail state: useState([]), useState('unknown'),
useState(null), useState(''), useState(false). -/
def initialRunDetailState : RunDetailState :=
  { events := [], status := "unknown", inputPrompt := none,
    inputValue := "", loading := false }

/-- Outcome of one fetchDetails request in RunDetail.  ok carries the
decoded body: the events field (none embeds a missing field, handled by
the || [] default) and the status string.  httpError is a response with
res.ok false; networkError is a rejected fetch, landing in the catch
block. -/
inductive FetchResult where
  | ok (events : Option (List Event)) (status : String)
  | httpError
  | networkError
deriving DecidableEq

/-- The continuation of fetchDetails in RunDetail: on an ok response the
snapshot is replaced wholesale (setEvents(data.events || []) and
setStatus(data.status)); a response with res.ok false changes nothing; a
rejected fetch changes nothing and logs (console.error).  The Bool
records whether the error was logged. -/
def applyFetch (s : RunDetailState) (r : FetchResult) : RunDetailState × Bool :=
  match r with
  | .ok evs status => ({ s with events := evs.getD [], status := status }, false)
  | .httpError => (s, false)
  | .networkError => (s, true)

/-- The request, if any, that submitInput sends.  The only local check
before the POST to /api/runs/{id}/input is the falsiness test
if (!inputValue) return; nothing about the run state or the status is
consulted. -/
def submitInputRequest (s : RunDetailState) : Option String :=
  if s.inputValue == "" then none else some s.inputValue

/-- Outcome of the submitInput POST.  resolved means the fetch promise
fulfilled, carrying whether the HTTP status was ok (the code never reads
it); rejected means a network error landing in the catch block. -/
inductive SubmitResult where
  | resolved (okStatus : Bool)
  | rejected
deriving DecidableEq

/-- The continuation of submitInput in RunDetail after the POST: when the
fetch fulfills — with any HTTP status, since the response is never
examined — the code runs setInputValue(''), setInputPrompt(null) and the
finally block setLoading(false); when it rejects, only console.error and
setLoading(false) run.  The Bool records whether the error was logged. -/
def applySubmitResult (s : RunDetailState) (r : SubmitResult) : RunDetailState × Bool :=
  match r with
  | .resolved _ => ({ s with inputValue := "", inputPrompt := none, loading := false }, false)
  | .rejected => ({ s with loading := false }, true)

/-- The render guard of the Stop button in RunDetail: the button is shown
unless the status string equals one of the three literals
RunCompleted, RunFailed, Cancelled. -/
def showCancelControl (status : String) : Bool :=
  !(status == "RunCompleted") && !(status == "RunFailed") && !(status == "Cancelled")

/-- The status badge colour choice in RunList, which is where the repo
itself names its terminal status tags: run_completed is styled green and
run_failed red; everything else blue. -/
def runListStatusStyle (status : String) : String :=
  if status == "run_completed" then "green"
  else if status == "run_failed" then "red"
  else "blue"

/-- Whether the awaiting-input prompt section of RunDetail renders: the
JSX guard inputPrompt && ... is truthy only for a non-null, non-empty
string. -/
def promptRendered (s : RunDetailState) : Bool :=
  match s.inputPrompt with
  | none => false
  | some p => !(p == "")

/-- The operations that can touch RunDetail state: a fetchDetails
completion, a cancelRun completion (which by itself changes no state),
typing in the input box (setInputValue), the start of submitInput
(setLoading(true)) and the completion of submitInput. -/
inductive DetailAction where
  | fetchDone (r : FetchResult)
  | cancelDone
  | setInputValue (v : String)
  | submitStart
  | submitDone (r : SubmitResult)

/-- One RunDetail state transition for each operation. -/
def detailStep (s : RunDetailState) (a : DetailAction) : RunDetailState :=
  match a with
  | .fetchDone r => (applyFetch s r).1
  | .cancelDone => s
  | .setInputValue v => { s with inputValue := v }
  | .submitStart => { s with loading := true }
  | .submitDone r => (applySubmitResult s r).1

/-- The part of the view relevant to run selection: the currently
selected run id and the RunDetail state that displays it. -/
structure ViewState where
  selectedRun : String
  detail : RunDetailState
deriving DecidableEq

/-- Actions on the view: switching the selected run, and the completion
of a fetchDetails request that was started while forRun was the selected
run.  Switching clears the poll interval, but an already in-flight fetch
still completes later as a pollResponse action. -/
inductive ViewAction where
  | selectRun (r : String)
  | pollResponse (forRun : String) (res : FetchResult)

/-- The view transition as the code implements it: the fetchDetails
continuation applies the response unconditionally — there is no
comparison of the response's originating run against the currently
selected run, and no abort of in-flight requests on switch. -/
def applyAction (s : ViewState) (a : ViewAction) : ViewState :=
  match a with
  | .selectRun r => { s with selectedRun := r }
  | .pollResponse _ res => { s with detail := (applyFetch s.detail res).1 }

/-- Truncating the tail before appending does not change a truncated
append: the capacity cut absorbs an inner cut of the same size. -/
theorem take_append_take {α : Type} (l t : List α) (n : Nat) :
    (l ++ t.take n).take n = (l ++ t).take n := by
  rw [List.take_append_eq_append_take, List.take_append_eq_append_take, List.take_take]
  rw [Nat.min_eq_left (Nat.sub_le n l.length)]

/-- Folding pushEvent over arrivals starting from any buffer within
capacity yields the truncated reversed arrivals in front of that buffer. -/
theorem foldl_pushEvent (msgs : List Event) (buf : List Event)
    (h : buf.length ≤ bufferCapacity) :
    msgs.foldl (fun b e => pushEvent e b) buf =
      (msgs.reverse ++ buf).take bufferCapacity := by
  induction msgs generalizing buf with
  | nil => simpa using (List.take_of_length_le h).symm
  | cons m ms ih =>
      have hlen : (pushEvent m buf).length ≤ bufferCapacity := by
        simp [pushEvent, List.length_take]
      rw [List.foldl_cons, ih (pushEvent m buf) hlen]
      show (ms.reverse ++ (m :: buf).take bufferCapacity).take bufferCapacity = _
      rw [take_append_take]
      simp

/-- Claim C3: for every sequence of incoming stream messages, the live
event buffer never holds more than 100 events, and after each arrival it
holds exactly the at most 100 most-recently-arrived events, newest first
(new events prepended, the oldest entry beyond capacity evicted). -/
theorem live_buffer_bounded_most_recent (msgs : List Event) :
    runStream msgs = msgs.reverse.take bufferCapacity ∧
      (runStream msgs).length ≤ bufferCapacity := by
  have h : runStream msgs = msgs.reverse.take bufferCapacity := by
    have := foldl_pushEvent msgs [] (by simp)
    simpa [runStream] using this
  refine ⟨h, ?_⟩
  rw [h]
  simp [List.length_take]

/-- Claim C8: an inbound stream message whose payload fails to parse is
dropped with a logged warning: the handler leaves the whole stream state
unchanged — buffer untouched, connection flag (and hence the open
connection) untouched — and logs. -/
theorem malformed_message_drops_and_keeps_connection (s : StreamState) :
    onMessage s none = (s, true) := rfl

/-- A terminal state absorbs every event kind. -/
theorem stepState_of_terminal (s : RunState) (k : String)
    (hs : s.isTerminal = true) : stepState s k = s := by
  cases s <;> first
    | rfl
    | exact absurd hs (by decide)

/-- An event of a terminal kind drives any state into a terminal state. -/
theorem stepState_terminal_kind (s : RunState) (k : String)
    (hk : k ∈ terminalKinds) : (stepState s k).isTerminal = true := by
  simp only [terminalKinds, List.mem_cons, List.not_mem_nil, or_false] at hk
  rcases hk with rfl | rfl | rfl <;> cases s <;> decide

/-- Folding the resolver over any event list from a terminal state
returns that state unchanged. -/
theorem foldl_stepState_of_terminal (es : List Event) (s : RunState)
    (hs : s.isTerminal = true) :
    es.foldl (fun st e => stepState st e.kind) s = s := by
  induction es generalizing s with
  | nil => rfl
  | cons e rest ih =>
      rw [List.foldl_cons, stepState_of_terminal s e.kind hs]
      exact ih s hs

/-- Once an event of terminal kind occurs in the list, the fold ends in a
terminal state, whatever the starting state. -/
theorem foldl_stepState_terminal_of_mem (es : List Event) (s : RunState)
    (h : ∃ e ∈ es, e.kind ∈ terminalKinds) :
    (es.foldl (fun st e => stepState st e.kind) s).isTerminal = true := by
  induction es generalizing s with
  | nil =>
      rcases h with ⟨e, he, _⟩
      exact absurd he (List.not_mem_nil e)
  | cons e rest ih =>
      rcases h with ⟨f, hf, hk⟩
      rcases List.mem_cons.mp hf with rfl | hmem
      · rw [List.foldl_cons]
        have ht : (stepState s f.kind).isTerminal = true :=
          stepState_terminal_kind s f.kind hk
        rw [foldl_stepState_of_terminal rest _ ht]
        exact ht
      · rw [List.foldl_cons]
        exact ih _ ⟨f, hmem, hk⟩

/-- Claim C1: once an event of a terminal kind (run_completed,
run_failed, run_cancelled) has been observed in the sequence, resolve is
idempotent: extending the sequence with any further events yields the
same derived state. -/
theorem resolve_idempotent_past_terminal (es more : List Event)
    (h : ∃ e ∈ es, e.kind ∈ terminalKinds) :
    resolve (es ++ more) = resolve es := by
  unfold resolve
  rw [List.foldl_append]
  exact foldl_stepState_of_terminal more _
    (foldl_stepState_terminal_of_mem es RunState.unknown h)

/-- Concrete witness for claim C1: a sequence containing a run_completed
event, extended with a run_started event, resolves identically. -/
theorem resolve_idempotent_past_terminal_witness :
    (∃ e ∈ [Event.mk "e1" "r1" "a1" "t1" "run_completed" "p"],
        e.kind ∈ terminalKinds) ∧
      resolve ([Event.mk "e1" "r1" "a1" "t1" "run_completed" "p"] ++
          [Event.mk "e2" "r1" "a1" "t2" "run_started" "p"]) =
        resolve [Event.mk "e1" "r1" "a1" "t1" "run_completed" "p"] :=
  ⟨by decide,
   resolve_idempotent_past_terminal
     [Event.mk "e1" "r1" "a1" "t1" "run_completed" "p"]
     [Event.mk "e2" "r1" "a1" "t2" "run_started" "p"] (by decide)⟩

/-- Claim C9: before any event or fetched status has been observed, the
derived state is unknown, not Active: RunDetail initializes its status to
the string unknown, which differs from any active tag, and resolve on the
empty sequence yields the unknown state, distinct from Active. -/
theorem initial_status_unknown_not_active :
    initialRunDetailState.status = "unknown" ∧
      initialRunDetailState.status ≠ "active" ∧
      resolve [] = RunState.unknown ∧
      RunState.unknown ≠ RunState.active := by
  refine ⟨rfl, ?_, rfl, ?_⟩ <;> decide

/-- Claim C7: a fetch failure of the history poller is caught, logged,
and leaves the displayed snapshot unchanged, while an ok response
replaces the events and status wholesale — the new snapshot is computed
from the response alone, independent of the previous state. -/
theorem poll_failure_keeps_snapshot_success_replaces
    (s : RunDetailState) (evs : Option (List Event)) (st : String) :
    applyFetch s FetchResult.networkError = (s, true) ∧
      (applyFetch s (FetchResult.ok evs st)).1.events = evs.getD [] ∧
      (applyFetch s (FetchResult.ok evs st)).1.status = st :=
  ⟨rfl, rfl, rfl⟩

/-- Claim C2 fails on the code: after switching the selected run from A
to B and receiving B's snapshot, a late-arriving poll response for A is
applied unconditionally — the fetch continuation has no run-id guard —
so A's events and status overwrite B's displayed state while B is still
the selected run. -/
theorem stale_poll_response_overwrites_selected_run :
    ([ViewAction.selectRun "B",
      ViewAction.pollResponse "B"
        (FetchResult.ok (some [Event.mk "e2" "B" "a" "t2" "run_started" "p"]) "active"),
      ViewAction.pollResponse "A"
        (FetchResult.ok (some [Event.mk "e1" "A" "a" "t1" "run_failed" "p"]) "run_failed")
     ].foldl applyAction
        { selectedRun := "A", detail := initialRunDetailState }) =
      { selectedRun := "B",
        detail := { events := [Event.mk "e1" "A" "a" "t1" "run_failed" "p"],
                    status := "run_failed", inputPrompt := none,
                    inputValue := "", loading := false } } := by
  decide

/-- Claim C4 fails on the code: submitInput performs no check of the
resolved run state — the only local test is that inputValue is nonempty —
so with a run whose events resolve to Active (not AwaitingInput) and a
nonempty input value, the request is sent. -/
theorem submitInput_sends_when_not_awaiting_input :
    resolve [Event.mk "e1" "A" "a" "t1" "run_started" "p"] = RunState.active ∧
      RunState.active ≠ RunState.awaitingInput ∧
      submitInputRequest
        { events := [Event.mk "e1" "A" "a" "t1" "run_started" "p"],
          status := "active", inputPrompt := none,
          inputValue := "yes", loading := false } = some "yes" := by
  decide

/-- Claim C5 fails on the code: when the submitInput POST fulfills with
an error HTTP status, the continuation never reads the response — the
prompt and value are cleared unconditionally and nothing is logged or
surfaced, so the optimistically cleared prompt is silently kept away. -/
theorem backend_rejection_clears_prompt_silently :
    applySubmitResult
        { events := [], status := "awaiting_input",
          inputPrompt := some "Which file should I read?",
          inputValue := "report.pdf", loading := true }
        (SubmitResult.resolved false) =
      ({ events := [], status := "awaiting_input", inputPrompt := none,
         inputValue := "", loading := false }, false) := by
  decide

/-- Claim C6 fails on the code: the Stop button guard in RunDetail
compares the status against the literals RunCompleted, RunFailed and
Cancelled, but the repo's own terminal status tags are snake_case — the
very tag RunList styles as the completed outcome — so the cancel control
is still shown for each of the three terminal status tags. -/
theorem cancel_control_shown_for_terminal_status :
    runListStatusStyle "run_completed" = "green" ∧
      runListStatusStyle "run_failed" = "red" ∧
      showCancelControl "run_completed" = true ∧
      showCancelControl "run_failed" = true ∧
      showCancelControl "run_cancelled" = true := by
  decide

/-- No RunDetail operation ever sets inputPrompt to a non-null value:
every step either leaves it untouched or sets it to null. -/
theorem detailStep_preserves_prompt_none (s : RunDetailState) (a : DetailAction)
    (h : s.inputPrompt = none) : (detailStep s a).inputPrompt = none := by
  cases a with
  | fetchDone r => cases r <;> simpa [detailStep, applyFetch] using h
  | cancelDone => exact h
  | setInputValue v => exact h
  | submitStart => exact h
  | submitDone r => cases r <;> simp [detailStep, applySubmitResult, h]

/-- Claim C10: starting from the initial RunDetail state, after any
sequence of component operations the inputPrompt is still null, so the
awaiting-input prompt section never renders and submitInput is
unreachable through that prompt. -/
theorem inputPrompt_always_none_prompt_never_renders (as : List DetailAction) :
    (as.foldl detailStep initialRunDetailState).inputPrompt = none ∧
      promptRendered (as.foldl detailStep initialRunDetailState) = false := by
  have key : ∀ (l : List DetailAction) (s : RunDetailState),
      s.inputPrompt = none → (l.foldl detailStep s).inputPrompt = none := by
    intro l
    induction l with
    | nil => intro s h; exact h
    | cons a rest ih =>
        intro s h
        rw [List.foldl_cons]
        exact ih _ (detailStep_preserves_prompt_none s a h)
  have hnone : (as.foldl detailStep initialRunDetailState).inputPrompt = none :=
    key as initialRunDetailState rfl
  refine ⟨hnone, ?_⟩
  unfold promptRendered
  rw [hnone]
